import Mathlib

/-
Verification development for the ConsentLens document-analysis pipeline.

The analysed source is the Next.js route handler `src/app/api/analyze/route.ts`
(namespace `Route` below) together with its earlier variant kept in the
repository as `src/unnamed/part_000` (namespace `Variant` below).

Modelling conventions (shallow embedding):
  * The remote completion provider is an oracle `provider : Nat -> CallOutcome`
    giving the outcome of the k-th `fetch` issued by one handler invocation
    (a network-level rejection, or an HTTP response with status, an optional
    parsed `Retry-After` header value in seconds, and a body text).
  * The JavaScript builtin `JSON.parse` is an oracle
    `jsonParse : String -> Option Json` supplied by the environment
    (`none` models a parse exception).  Both `groqRes.json()` and the
    `JSON.parse(answer)` call go through this oracle, as in the runtime.
  * Observable side effects are collected in a list of `Event`s: outbound
    provider calls (with the model name used), `setTimeout` sleeps (with the
    delay in ms), and data-store insert attempts.
  * Fetch response bodies are single-use, as mandated by the Fetch standard:
    a second `text()`/`json()` on a consumed body rejects with a TypeError.
    The model tracks a `consumed` flag per response; this matters because the
    route reads the body inside the retry loop and then reads it again after
    the loop on some paths.
  * `Number.parseFloat`/`Math.ceil` arithmetic in the retry-hint scanner is
    modelled exactly over Nat (ceiling division) rather than over IEEE
    doubles; a capture consisting only of dots (which parseFloat maps to NaN)
    is idealised to a failed parse.
  * JavaScript falsiness of the string-valued request/environment fields is
    `none` (undefined) or the empty string.
-/

namespace ConsentLens

/-- Model of a JSON value as produced by the runtime JSON parser and returned
by the handler.  Numbers are modelled as integers (all numeric literals the
pipeline itself produces are integers). -/
inductive Json where
  | null : Json
  | bool (b : Bool) : Json
  | num (n : Int) : Json
  | str (s : String) : Json
  | arr (elems : List Json) : Json
  | obj (fields : List (String × Json)) : Json

/-- First binding of a key in an association list of JSON object fields. -/
def jlookup : List (String × Json) → String → Option Json
  | [], _ => none
  | (k, v) :: rest, key => if k = key then some v else jlookup rest key

/-- JavaScript property access `j[key]`: defined on objects, `undefined`
(`none`) on every other value (access on primitives does not throw). -/
def jget : Json → String → Option Json
  | .obj fields, key => jlookup fields key
  | _, _ => none

/-- JavaScript index access `j[i]` as used for `choices?.[0]`: element of an
array, `undefined` (`none`) otherwise. -/
def jidx : Json → Nat → Option Json
  | .arr elems, i => elems.get? i
  | _, _ => none

/-- Assign a key in an object field list: replaces the value in place when the
key exists (keeping its position, as JavaScript object literals do), appends
otherwise. -/
def setField : List (String × Json) → String → Json → List (String × Json)
  | [], k, v => [(k, v)]
  | (k0, v0) :: rest, k, v =>
    if k0 = k then (k0, v) :: rest else (k0, v0) :: setField rest k v

/-- Object spread followed by extra keys, `\x7b...base, k1: v1, ...\x7d`.  For the
non-object bases (never used by the pipeline on such) the own enumerable
properties are none, so only the extras remain. -/
def jspread (base : Json) (extras : List (String × Json)) : Json :=
  match base with
  | .obj fields => .obj (extras.foldl (fun acc kv => setField acc kv.1 kv.2) fields)
  | _ => .obj (extras.foldl (fun acc kv => setField acc kv.1 kv.2) [])

/-- An HTTP JSON response produced by the handler (`NextResponse.json`). -/
structure HttpResp where
  status : Nat
  body : Json

/-- Observable side effects of one handler invocation, in chronological
order: an outbound provider call (with the model name sent), a `setTimeout`
sleep in milliseconds, or a data-store insert attempt (with the row sent and
whether the store reported success). -/
inductive Event where
  | call (model : String) : Event
  | sleep (ms : Nat) : Event
  | insert (documentId : String) (record : Json) (ok : Bool) : Event

/-- Whether an event is an outbound provider call. -/
def isCall : Event → Bool
  | .call _ => true
  | _ => false

/-- Number of outbound provider calls in an event trace. -/
def countCalls (evs : List Event) : Nat := (evs.filter isCall).length

/-- JavaScript falsiness of an optional string field: absent (`undefined`) or
the empty string. -/
def jsFalsy : Option String → Bool
  | none => true
  | some s => s.isEmpty

/-- Whitespace class of the JavaScript regular-expression escape `\s`
(restricted to its ASCII members). -/
def jsWs (c : Char) : Bool :=
  c = ' ' || c = '\t' || c = '\n' || c = '\r' || c = '\x0b' || c = '\x0c'

/-- Character class `[\d.]` of the retry-hint pattern. -/
def digitOrDot (c : Char) : Bool := c.isDigit || c = '.'

/-- Numeric value of a list of decimal digit characters. -/
def digitsToNat (ds : List Char) : Nat :=
  ds.foldl (fun acc c => acc * 10 + (c.toNat - 48)) 0

/-- JavaScript `String.prototype.startsWith` over the character data: first
argument the string, second the sought leading pattern. -/
def strStartsWith : List Char → List Char → Bool
  | _, [] => true
  | [], _ :: _ => false
  | c :: cs, p :: ps => if c = p then strStartsWith cs ps else false

/-- The literal part of the pattern `/try again in\s+([\d.]+)s/i`. -/
def tryAgainLit : List Char := ['t', 'r', 'y', ' ', 'a', 'g', 'a', 'i', 'n', ' ', 'i', 'n']

/-- Match a lowercase literal case-insensitively at the head of the input,
returning the remainder on success. -/
def matchLit : List Char → List Char → Option (List Char)
  | [], rest => some rest
  | _ :: _, [] => none
  | p :: ps, c :: cs => if c.toLower = p then matchLit ps cs else none

/-- Attempt the pattern `try again in\s+([\d.]+)s` (case-insensitive) at the
current position, returning the `[\d.]+` capture on success.  The classes
`\s` and `[\d.]` are disjoint and neither contains `s`, so the greedy
maximal-run reading is exactly the backtracking regex semantics. -/
def tryMatchAt (cs : List Char) : Option (List Char) :=
  match matchLit tryAgainLit cs with
  | none => none
  | some rest =>
    let ws := rest.takeWhile jsWs
    if ws.isEmpty then none
    else
      let rest2 := rest.dropWhile jsWs
      let cap := rest2.takeWhile digitOrDot
      if cap.isEmpty then none
      else
        match rest2.dropWhile digitOrDot with
        | [] => none
        | c :: _ => if c.toLower = 's' then some cap else none

/-- Leftmost match of the retry-hint pattern: try each start position from the
left, as `String.prototype.match` does. -/
def findRetryCapture : List Char → Option (List Char)
  | [] => none
  | c :: cs =>
    match tryMatchAt (c :: cs) with
    | some cap => some cap
    | none => findRetryCapture cs

/-- Evaluate `Math.ceil(Number.parseFloat(cap) * 1000)` for a capture drawn
from `[\d.]+`, exactly over Nat: parseFloat reads leading digits, then an
optional dot and fractional digits (a second dot stops it).  A capture with
no digit at all (only dots) yields NaN at runtime; this is idealised to
`none`. -/
def parseFloatMs (cap : List Char) : Option Nat :=
  let intPart := cap.takeWhile Char.isDigit
  let rest := cap.dropWhile Char.isDigit
  let fracPart :=
    match rest with
    | '.' :: r => r.takeWhile Char.isDigit
    | _ => []
  if intPart.isEmpty && fracPart.isEmpty then none
  else
    let ip := digitsToNat intPart
    let fp := digitsToNat fracPart
    let d := fracPart.length
    some (ip * 1000 + (fp * 1000 + (10 ^ d - 1)) / 10 ^ d)

/-- Model of `parseGroqRetry` (route.ts lines 47-52, identical in the
variant): extract a retry delay in milliseconds from a provider body text
matching `try again in <number>s`, or `null` when the text is empty or the
pattern does not occur. -/
def parseGroqRetry (text : String) : Option Nat :=
  if text.data.isEmpty then none
  else (findRetryCapture text.data).bind parseFloatMs

/-- An HTTP response from the provider as seen by the handler: the status
code, the `Retry-After` header when present (already parsed to seconds), and
the body text. -/
structure GroqResponse where
  status : Nat
  retryAfter : Option Nat
  bodyText : String

/-- Outcome of one `fetch` to the provider: either the promise rejects at the
network level (carrying the stringified error), or an HTTP response arrives. -/
inductive CallOutcome where
  | netFail (err : String) : CallOutcome
  | resp (r : GroqResponse) : CallOutcome

/-- The `Response.ok` accessor of the Fetch API: status in the range 200-299. -/
def respOk (status : Nat) : Bool := 200 ≤ status && status ≤ 299

/-- Delay chosen for a 429 response (route.ts lines 147-150, identical in the
variant): the `Retry-After` header in seconds times 1000 when the header is
present, else the value scanned from the body text, else 5000 ms. -/
def delay429 (r : GroqResponse) : Nat :=
  match r.retryAfter with
  | some h => h * 1000
  | none =>
    match parseGroqRetry r.bodyText with
    | some p => p
    | none => 5000

/-- Result of the retry loop: either a `fetch` rejected (which both variants
treat outside the loop), or the loop exited with the current response
(paired with whether its body was already consumed by `text()`), the
accumulated events and the number of calls made so far. -/
inductive LoopOut where
  | fetchThrew (err : String) (evs : List Event) : LoopOut
  | done (cur : Option (GroqResponse × Bool)) (evs : List Event) (callIdx : Nat) : LoopOut

/-- Events accumulated in a loop result. -/
def loopEvents : LoopOut → List Event
  | .fetchThrew _ evs => evs
  | .done _ evs _ => evs

/-- The retry loop shared by route.ts (lines 128-160) and the variant (lines
155-178): `while (attempt < MAX_RETRIES)` fetch the model; break on 2xx or
404 with the body unread; otherwise read the body, sleep per the 429 hints
or the 5xx exponential backoff `2000 * 2 ^ attempt` and retry, or break
immediately on any other status with the body consumed.  `fuel` is the
number of loop iterations still allowed, i.e. `MAX_RETRIES - attempt`. -/
def retryLoop (provider : Nat → CallOutcome) (model : String) :
    Nat → Nat → Nat → Option (GroqResponse × Bool) → List Event → LoopOut
  | 0, _, callIdx, cur, evs => .done cur evs callIdx
  | fuel + 1, attempt, callIdx, _, evs =>
    match provider callIdx with
    | .netFail err => .fetchThrew err (evs ++ [.call model])
    | .resp r =>
      if respOk r.status || r.status == 404 then
        .done (some (r, false)) (evs ++ [.call model]) (callIdx + 1)
      else if r.status == 429 then
        retryLoop provider model fuel (attempt + 1) (callIdx + 1) (some (r, true))
          (evs ++ [.call model] ++ [.sleep (delay429 r)])
      else if 500 ≤ r.status then
        retryLoop provider model fuel (attempt + 1) (callIdx + 1) (some (r, true))
          (evs ++ [.call model] ++ [.sleep (2000 * 2 ^ attempt)])
      else
        .done (some (r, true)) (evs ++ [.call model]) (callIdx + 1)

/-- The retry cap of both variants. -/
def MAX_RETRIES : Nat := 4

/-- JavaScript `String.prototype.trim` (restricted to the ASCII whitespace
class): strip leading and trailing whitespace. -/
def jsTrim (s : String) : String :=
  ⟨((s.data.dropWhile jsWs).reverse.dropWhile jsWs).reverse⟩

/-- Result of extracting the model answer text from the provider payload:
either a TypeError is thrown (calling `trim` on a non-string, or
destructuring `null`), or an answer string is obtained. -/
inductive Extracted where
  | throws : Extracted
  | answer (s : String) : Extracted

/-- Emit an object field only when the accessed property exists; a field
whose value is `undefined` is dropped by JSON serialisation on the way to
the store. -/
def undefDrop (k : String) (v : Option Json) : List (String × Json) :=
  match v with
  | some j => [(k, j)]
  | none => []

/-- The row `saveResult` sends to the `analysis_results` store (route.ts
lines 246-252, identical in the variant): document id, a summary projection
holding just the key points, compliance score, risk level and
recommendations, each taken from the result by property access. -/
def saveRecord (documentId : String) (r : Json) : Json :=
  .obj ([("document_id", .str documentId),
         ("summary", .obj (undefDrop "keyPoints" (jget r "keyPoints")))]
    ++ undefDrop "compliance_score" (jget r "complianceScore")
    ++ undefDrop "risk_level" (jget r "riskLevel")
    ++ undefDrop "recommendations" (jget r "recommendations"))

/-- Events produced by a guarded `saveResult` call: nothing when the document
id is falsy; nothing when the result is `null` (the property accesses inside
the try block throw and are swallowed); otherwise one insert attempt whose
outcome (`insertFails`) is caught inside `saveResult` and never escapes. -/
def saveEvents (insertFails : Bool) (documentId : Option String) (r : Json) : List Event :=
  match documentId with
  | none => []
  | some d =>
    if d.isEmpty then []
    else
      match r with
      | .null => []
      | _ => [.insert d (saveRecord d r) (!insertFails)]

/-- The degraded result the variant builds when the model answer is not JSON
(part_000 lines 213-219): null score, unknown risk, empty structured fields
and the raw answer in `textualAnalysis`. -/
def degraded (answer : String) : Json :=
  .obj [("complianceScore", .null),
        ("riskLevel", .str "unknown"),
        ("keyPoints", .arr []),
        ("textualAnalysis", .str answer),
        ("recommendations", .arr [])]

/-- Whether a JSON value carries all four required AnalysisResult fields. -/
def hasAnalysisShape (j : Json) : Bool :=
  (jget j "complianceScore").isSome && (jget j "riskLevel").isSome &&
  (jget j "keyPoints").isSome && (jget j "recommendations").isSome

/-- The 400 body both variants return on missing input fields. -/
def missingFieldsJson : Json := .obj [("error", .str "Missing content or lawRegion")]

/-- The request body as seen after `await req.json()` and destructuring:
either that step throws (malformed body JSON, or a `null` body), or the
three fields are read off the parsed object. -/
inductive ReqBody where
  | throws (msg : String) : ReqBody
  | fields (content lawRegion documentId : Option String) : ReqBody

namespace Route

/-- The hard-coded fallback model name (route.ts line 9). -/
def FALLBACK_MODEL : String := "llama3-70b-8192"

/-- The static canned fallback result (route.ts lines 19-43). -/
def fallbackJson : Json :=
  .obj [("complianceScore", .num 72),
        ("riskLevel", .str "medium"),
        ("keyPoints", .arr [
          .str "Data is shared with third-party analytics providers.",
          .str "User data may be stored for up to 24 months.",
          .str "You have the right to request deletion of personal data.",
          .str "Cookies are used for personalization and ads.",
          .str "Service reserves the right to update terms without notice."]),
        ("recommendations", .arr [
          .obj [("title", .str "Disable third-party cookies"),
                ("description", .str "Limit tracking by turning off third-party cookies in your browser."),
                ("severity", .str "medium"),
                ("category", .str "privacy")],
          .obj [("title", .str "Request data deletion"),
                ("description", .str "Exercise your right to be forgotten if you stop using the service."),
                ("severity", .str "high"),
                ("category", .str "rights")]])]

/-- The catch-all 500 body (route.ts line 223). -/
def internalErrorJson : Json := .obj [("error", .str "Internal error")]

/-- Environment and collaborators of one route.ts invocation. -/
structure Env where
  apiKey : Option String
  groqModelEnv : Option String
  provider : Nat → CallOutcome
  jsonParse : String → Option Json

/-- MODEL_NAME (route.ts lines 11-14): the `GROQ_MODEL` environment variable
when it is truthy and does not start with `gsk_`, else the fallback model. -/
def modelName (env : Env) : String :=
  match env.groqModelEnv with
  | some m => if !m.isEmpty && !(strStartsWith m.data ['g', 's', 'k', '_']) then m else FALLBACK_MODEL
  | none => FALLBACK_MODEL

/-- Extraction of the answer text (route.ts lines 199-200):
`const \x7b choices \x7d = await groqRes.json()` throws on a `null` payload; then
`choices?.[0]?.message?.content?.trim() ?? ""` yields the trimmed content
when it is a string, the empty string when any link of the chain is missing
or `null`, and throws a TypeError when the content is a non-string value
(`.trim` is then `undefined` and calling it throws). -/
def getAnswer (payload : Json) : Extracted :=
  match payload with
  | .null => .throws
  | _ =>
    match (jget payload "choices").bind (fun c => jidx c 0) |>.bind (fun m => jget m "message")
        |>.bind (fun m => jget m "content") with
    | none => .answer ""
    | some .null => .answer ""
    | some (.str s) => .answer (jsTrim s)
    | some _ => .throws

/-- Steps 3 and 4 of route.ts (lines 182-220), entered after the retry loop
and the optional fallback-model call, with `cur` the current response (and
whether its body was consumed inside the loop).  A consumed body makes the
re-read at line 183 reject, which the catch-all turns into a 500; an ok
response is parsed, the answer is parsed as JSON with the canned fallback on
failure, the result is best-effort persisted and returned. -/
def finish (env : Env) (insertFails : Bool) (documentId : Option String)
    (cur : Option (GroqResponse × Bool)) (evs : List Event) : HttpResp × List Event :=
  match cur with
  | none =>
    (⟨200, jspread fallbackJson
        [("fallback", .bool true), ("groqStatus", .str "no_response"),
         ("groqBody", .str "no response")]⟩,
     evs ++ saveEvents insertFails documentId fallbackJson)
  | some (r, consumed) =>
    if respOk r.status then
      match env.jsonParse r.bodyText with
      | none => (⟨500, internalErrorJson⟩, evs)
      | some payload =>
        match getAnswer payload with
        | .throws => (⟨500, internalErrorJson⟩, evs)
        | .answer s =>
          let parsed :=
            match env.jsonParse s with
            | some p => p
            | none => fallbackJson
          (⟨200, parsed⟩, evs ++ saveEvents insertFails documentId parsed)
    else if consumed then
      (⟨500, internalErrorJson⟩, evs)
    else
      (⟨200, jspread fallbackJson
          [("fallback", .bool true), ("groqStatus", .num r.status),
           ("groqBody", .str r.bodyText)]⟩,
       evs ++ saveEvents insertFails documentId fallbackJson)

/-- The post-loop 404 step of route.ts (lines 163-177): when the loop ended
on a 404, make exactly one further call with the fallback model; a rejected
fetch on that leg returns the annotated canned fallback at once, any
response replaces the current one (with a fresh body) and flows into
`finish`. -/
def afterLoop (env : Env) (insertFails : Bool) (documentId : Option String)
    (cur : Option (GroqResponse × Bool)) (evs : List Event) (callIdx : Nat) :
    HttpResp × List Event :=
  match cur with
  | none => finish env insertFails documentId none evs
  | some (r, consumed) =>
    if !(respOk r.status) && r.status == 404 then
      match env.provider callIdx with
      | .netFail err =>
        (⟨200, jspread fallbackJson
            [("fallback", .bool true), ("error", .str "groq_fallback_fetch_failed"),
             ("details", .str err)]⟩,
         evs ++ [.call FALLBACK_MODEL] ++ saveEvents insertFails documentId fallbackJson)
      | .resp r2 => finish env insertFails documentId (some (r2, false)) (evs ++ [.call FALLBACK_MODEL])
    else finish env insertFails documentId (some (r, consumed)) evs

/-- The route.ts POST handler (lines 63-225), as a function from the
environment, the store outcome and the request body to the HTTP response and
the chronological effect trace.  The prompt construction (lines 83-121) has
no observable effect under the call-indexed provider oracle and is not
represented. -/
def POST (env : Env) (insertFails : Bool) : ReqBody → HttpResp × List Event
  | .throws _ => (⟨500, internalErrorJson⟩, [])
  | .fields content lawRegion documentId =>
    if jsFalsy content || jsFalsy lawRegion then
      (⟨400, missingFieldsJson⟩, [])
    else if jsFalsy env.apiKey then
      (⟨200, fallbackJson⟩, saveEvents insertFails documentId fallbackJson)
    else
      match retryLoop env.provider (modelName env) MAX_RETRIES 0 0 none [] with
      | .fetchThrew err evs =>
        (⟨200, jspread fallbackJson
            [("fallback", .bool true), ("error", .str "groq_fetch_failed"),
             ("details", .str err)]⟩,
         evs ++ saveEvents insertFails documentId fallbackJson)
      | .done cur evs callIdx => afterLoop env insertFails documentId cur evs callIdx

end Route

namespace Variant

/-- The static canned fallback result of the variant (part_000 lines 17-41);
it differs from the route.ts one in the spelling `personalisation`. -/
def fallbackJson : Json :=
  .obj [("complianceScore", .num 72),
        ("riskLevel", .str "medium"),
        ("keyPoints", .arr [
          .str "Data is shared with third-party analytics providers.",
          .str "User data may be stored for up to 24 months.",
          .str "You have the right to request deletion of personal data.",
          .str "Cookies are used for personalisation and ads.",
          .str "Service reserves the right to update terms without notice."]),
        ("recommendations", .arr [
          .obj [("title", .str "Disable third-party cookies"),
                ("description", .str "Limit tracking by turning off third-party cookies in your browser."),
                ("severity", .str "medium"),
                ("category", .str "privacy")],
          .obj [("title", .str "Request data deletion"),
                ("description", .str "Exercise your right to be forgotten if you stop using the service."),
                ("severity", .str "high"),
                ("category", .str "rights")]])]

/-- The catch-all 500 body of the variant (part_000 line 229); it carries the
message of the caught error. -/
def internalErrorJson (msg : String) : Json :=
  .obj [("error", .str "Internal error"), ("message", .str msg)]

/-- Representative message of the TypeError raised by reading an
already-consumed fetch body (the exact runtime wording is
implementation-specific). -/
def bodyUnusableMsg : String := "Body is unusable"

/-- Representative message of the TypeError raised by calling `trim` on a
non-string value (the exact runtime wording is implementation-specific). -/
def trimTypeErrorMsg : String := "content.trim is not a function"

/-- Environment and collaborators of one part_000 invocation: it reads
`GROQ_MODEL`, `GROQ_FALLBACK_MODEL` and `USE_FALLBACK` in addition to the
key (the `GROQ_URL` variable only selects the endpoint and has no observable
effect under the oracle). -/
structure Env where
  apiKey : Option String
  groqModelEnv : Option String
  groqFallbackModelEnv : Option String
  useFallback : Bool
  provider : Nat → CallOutcome
  jsonParse : String → Option Json

/-- MODEL_NAME of the variant (part_000 line 9): `GROQ_MODEL` or the empty
string. -/
def modelName (env : Env) : String := env.groqModelEnv.getD ""

/-- FALLBACK_MODEL of the variant (part_000 line 10): `GROQ_FALLBACK_MODEL`
or, when that variable is absent, MODEL_NAME (nullish coalescing: an empty
string set in the environment is kept). -/
def fallbackModel (env : Env) : String := env.groqFallbackModelEnv.getD (modelName env)

/-- Extraction of the answer text in the variant (part_000 line 206):
`(payload?.choices?.[0]?.message?.content ?? payload?.rawText ?? "").trim()`.
Optional chaining never throws (a `null` payload just yields `undefined`),
`??` also skips a JSON `null`, and the final `trim` call throws precisely
when the selected value is a non-string non-null value. -/
def getAnswer (payload : Json) : Extracted :=
  let c := (jget payload "choices").bind (fun c => jidx c 0) |>.bind (fun m => jget m "message")
      |>.bind (fun m => jget m "content")
  let c := match c with | some .null => none | x => x
  let v :=
    match c with
    | some x => some x
    | none => match jget payload "rawText" with | some .null => none | x => x
  match v with
  | none => .answer ""
  | some (.str s) => .answer (jsTrim s)
  | some _ => .throws

/-- Steps 3 and 4 of the variant (part_000 lines 189-226).  As in route.ts
the body of a non-ok response left over from the loop was already consumed,
so the re-read at line 190 rejects into the catch-all; otherwise the non-ok
outcome either degrades to the annotated canned fallback (`USE_FALLBACK`) or
surfaces a 502 with the status and body.  On an ok response,
`groqRes.json()` consumes the body, so the `.catch` re-read (line 202) can
never succeed: a non-JSON provider body also ends in the catch-all.  A
non-JSON answer degrades to the textual result instead of the canned one. -/
def finish (env : Env) (insertFails : Bool) (documentId : Option String)
    (cur : Option (GroqResponse × Bool)) (evs : List Event) : HttpResp × List Event :=
  match cur with
  | none =>
    if env.useFallback then
      (⟨200, jspread fallbackJson
          [("fallback", .bool true), ("groqStatus", .str "no_response"),
           ("groqBody", .str "no response")]⟩,
       evs ++ saveEvents insertFails documentId fallbackJson)
    else
      (⟨502, .obj [("error", .str "Groq API failed"), ("status", .num 500),
                   ("details", .str "no response")]⟩,
       evs)
  | some (r, consumed) =>
    if respOk r.status then
      match env.jsonParse r.bodyText with
      | none => (⟨500, internalErrorJson bodyUnusableMsg⟩, evs)
      | some payload =>
        match getAnswer payload with
        | .throws => (⟨500, internalErrorJson trimTypeErrorMsg⟩, evs)
        | .answer s =>
          let parsed :=
            match env.jsonParse s with
            | some p => p
            | none => degraded s
          (⟨200, parsed⟩, evs ++ saveEvents insertFails documentId parsed)
    else if consumed then
      (⟨500, internalErrorJson bodyUnusableMsg⟩, evs)
    else if env.useFallback then
      (⟨200, jspread fallbackJson
          [("fallback", .bool true), ("groqStatus", .num r.status),
           ("groqBody", .str r.bodyText)]⟩,
       evs ++ saveEvents insertFails documentId fallbackJson)
    else
      (⟨502, .obj [("error", .str "Groq API failed"), ("status", .num r.status),
                   ("details", .str r.bodyText)]⟩,
       evs)

/-- The post-loop 404 step of the variant (part_000 lines 181-184): one
further call with the fallback model, with no try/catch, so a rejected fetch
on that leg falls through to the catch-all 500. -/
def afterLoop (env : Env) (insertFails : Bool) (documentId : Option String)
    (cur : Option (GroqResponse × Bool)) (evs : List Event) (callIdx : Nat) :
    HttpResp × List Event :=
  match cur with
  | none => finish env insertFails documentId none evs
  | some (r, consumed) =>
    if !(respOk r.status) && r.status == 404 then
      match env.provider callIdx with
      | .netFail err => (⟨500, internalErrorJson err⟩, evs ++ [.call (fallbackModel env)])
      | .resp r2 =>
        finish env insertFails documentId (some (r2, false)) (evs ++ [.call (fallbackModel env)])
    else finish env insertFails documentId (some (r, consumed)) evs

/-- The part_000 POST handler (lines 60-231).  Unlike route.ts it requires a
configured model name, gates the unconfigured path and the final-failure
path on `USE_FALLBACK` (returning explanatory 500/502 errors otherwise), and
has no try/catch around the fetches, so a rejected fetch becomes the
catch-all 500 with the error text. -/
def POST (env : Env) (insertFails : Bool) : ReqBody → HttpResp × List Event
  | .throws msg => (⟨500, internalErrorJson msg⟩, [])
  | .fields content lawRegion documentId =>
    if jsFalsy content || jsFalsy lawRegion then
      (⟨400, missingFieldsJson⟩, [])
    else if jsFalsy env.apiKey || (modelName env).isEmpty then
      if env.useFallback then
        (⟨200, fallbackJson⟩, saveEvents insertFails documentId fallbackJson)
      else
        (⟨500, .obj [("error",
            .str "GROQ_API_KEY or GROQ_MODEL missing. Set environment variables.")]⟩, [])
    else
      match retryLoop env.provider (modelName env) MAX_RETRIES 0 0 none [] with
      | .fetchThrew err evs => (⟨500, internalErrorJson err⟩, evs)
      | .done cur evs callIdx => afterLoop env insertFails documentId cur evs callIdx

end Variant

/-! Concrete environments used by the claim witnesses and counterexamples. -/

/-- A provider payload whose first choice message content is the string `7`
(valid JSON, but not an object). -/
def numPayload : Json :=
  .obj [("choices", .arr [.obj [("message", .obj [("content", .str "7")])]])]

/-- A provider payload whose first choice message content is plain prose. -/
def prosePayload : Json :=
  .obj [("choices", .arr [.obj [("message", .obj [("content", .str "plain prose, not JSON")])]])]

/-- A JSON.parse oracle for the witnesses: the provider body text `ENV` maps
to `numPayload`, `PROSE` to `prosePayload`, the answer text `7` to the JSON
number 7, and everything else fails to parse. -/
def demoParse : String → Option Json := fun s =>
  if s = "ENV" then some numPayload
  else if s = "PROSE" then some prosePayload
  else if s = "7" then some (.num 7)
  else none

/-- Unconfigured environment: no API key, provider unreachable. -/
def demoEnv : Route.Env :=
  { apiKey := none, groqModelEnv := none,
    provider := fun _ => .netFail "connection refused",
    jsonParse := demoParse }

/-- Environment whose provider answers 500 with body `oops` on every call. -/
def all500Env : Route.Env :=
  { apiKey := some "key", groqModelEnv := none,
    provider := fun _ => .resp { status := 500, retryAfter := none, bodyText := "oops" },
    jsonParse := demoParse }

/-- Environment whose provider answers 404 on the first call and 200 with a
well-formed envelope (content `7`) on the second. -/
def fb404Env : Route.Env :=
  { apiKey := some "key", groqModelEnv := none,
    provider := fun i =>
      if i = 0 then .resp { status := 404, retryAfter := none, bodyText := "model not found" }
      else .resp { status := 200, retryAfter := none, bodyText := "ENV" },
    jsonParse := demoParse }

/-- Environment whose provider answers 200 with a well-formed envelope whose
message content is the JSON text `7` on every call. -/
def json200Env : Route.Env :=
  { apiKey := some "key", groqModelEnv := none,
    provider := fun _ => .resp { status := 200, retryAfter := none, bodyText := "ENV" },
    jsonParse := demoParse }

/-- Environment whose provider answers 200 with a well-formed envelope whose
message content is plain prose on every call. -/
def prose200Env : Route.Env :=
  { apiKey := some "key", groqModelEnv := none,
    provider := fun _ => .resp { status := 200, retryAfter := none, bodyText := "PROSE" },
    jsonParse := demoParse }

/-- Variant-pipeline environment mirroring `prose200Env`, with a configured
model name and `USE_FALLBACK` unset. -/
def prose200EnvV : Variant.Env :=
  { apiKey := some "key", groqModelEnv := some "primary-model",
    groqFallbackModelEnv := none, useFallback := false,
    provider := fun _ => .resp { status := 200, retryAfter := none, bodyText := "PROSE" },
    jsonParse := demoParse }

/-- A 429 response carrying no Retry-After header and a body hinting a retry
in 2.0004 seconds. -/
def hint429Resp : GroqResponse :=
  { status := 429, retryAfter := none, bodyText := "Please try again in 2.0004s." }

/-- Provider answering `hint429Resp` on every call. -/
def hint429Provider : Nat → CallOutcome := fun _ => .resp hint429Resp

/-! Helper lemmas about the shared retry loop and the route.ts stages. -/

theorem countCalls_append (a b : List Event) :
    countCalls (a ++ b) = countCalls a + countCalls b := by
  simp [countCalls, List.filter_append]

theorem saveEvents_filter_isCall (f : Bool) (d : Option String) (r : Json) :
    (saveEvents f d r).filter isCall = [] := by
  unfold saveEvents
  rcases d with _ | d
  · rfl
  · by_cases hd : d.isEmpty
    · simp [hd]
    · simp only [hd]
      rcases r <;> simp [isCall]

theorem countCalls_saveEvents (f : Bool) (d : Option String) (r : Json) :
    countCalls (saveEvents f d r) = 0 := by
  simp [countCalls, saveEvents_filter_isCall]

theorem retryLoop_zero (p : Nat → CallOutcome) (m : String) (a k : Nat)
    (cur : Option (GroqResponse × Bool)) (evs : List Event) :
    retryLoop p m 0 a k cur evs = .done cur evs k := rfl

theorem retryLoop_netFail (p : Nat → CallOutcome) (m : String) (fuel a k : Nat)
    (cur : Option (GroqResponse × Bool)) (evs : List Event) (err : String)
    (hp : p k = .netFail err) :
    retryLoop p m (fuel + 1) a k cur evs = .fetchThrew err (evs ++ [.call m]) := by
  conv_lhs => rw [retryLoop]
  simp only [hp]

theorem retryLoop_break (p : Nat → CallOutcome) (m : String) (fuel a k : Nat)
    (cur : Option (GroqResponse × Bool)) (evs : List Event) (r : GroqResponse)
    (hp : p k = .resp r) (hok : (respOk r.status || r.status == 404) = true) :
    retryLoop p m (fuel + 1) a k cur evs = .done (some (r, false)) (evs ++ [.call m]) (k + 1) := by
  conv_lhs => rw [retryLoop]
  simp only [hp]
  rw [if_pos hok]

theorem retryLoop_429 (p : Nat → CallOutcome) (m : String) (fuel a k : Nat)
    (cur : Option (GroqResponse × Bool)) (evs : List Event) (r : GroqResponse)
    (hp : p k = .resp r) (hst : r.status = 429) :
    retryLoop p m (fuel + 1) a k cur evs =
      retryLoop p m fuel (a + 1) (k + 1) (some (r, true))
        (evs ++ [.call m] ++ [.sleep (delay429 r)]) := by
  conv_lhs => rw [retryLoop]
  simp only [hp]
  have h1 : ¬((respOk r.status || r.status == 404) = true) := by
    simp only [Bool.or_eq_true, beq_iff_eq, respOk, Bool.and_eq_true, decide_eq_true_eq]
    omega
  have h2 : (r.status == 429) = true := by rw [hst]; rfl
  rw [if_neg h1, if_pos h2]

theorem retryLoop_5xx (p : Nat → CallOutcome) (m : String) (fuel a k : Nat)
    (cur : Option (GroqResponse × Bool)) (evs : List Event) (r : GroqResponse)
    (hp : p k = .resp r) (hst : 500 ≤ r.status) :
    retryLoop p m (fuel + 1) a k cur evs =
      retryLoop p m fuel (a + 1) (k + 1) (some (r, true))
        (evs ++ [.call m] ++ [.sleep (2000 * 2 ^ a)]) := by
  conv_lhs => rw [retryLoop]
  simp only [hp]
  have h1 : ¬((respOk r.status || r.status == 404) = true) := by
    simp only [Bool.or_eq_true, beq_iff_eq, respOk, Bool.and_eq_true, decide_eq_true_eq]
    omega
  have h2 : ¬((r.status == 429) = true) := by
    simp only [beq_iff_eq]
    omega
  rw [if_neg h1, if_neg h2, if_pos hst]

theorem retryLoop_other (p : Nat → CallOutcome) (m : String) (fuel a k : Nat)
    (cur : Option (GroqResponse × Bool)) (evs : List Event) (r : GroqResponse)
    (hp : p k = .resp r) (h1 : ¬((respOk r.status || r.status == 404) = true))
    (h2 : ¬((r.status == 429) = true)) (h3 : ¬ 500 ≤ r.status) :
    retryLoop p m (fuel + 1) a k cur evs = .done (some (r, true)) (evs ++ [.call m]) (k + 1) := by
  conv_lhs => rw [retryLoop]
  simp only [hp]
  rw [if_neg h1, if_neg h2, if_neg h3]

theorem retryLoop_calls_le (p : Nat → CallOutcome) (m : String) :
    ∀ (fuel a k : Nat) (cur : Option (GroqResponse × Bool)) (evs : List Event),
      countCalls (loopEvents (retryLoop p m fuel a k cur evs)) ≤ countCalls evs + fuel := by
  intro fuel
  induction fuel with
  | zero => intro a k cur evs; simp [retryLoop_zero, loopEvents]
  | succ n ih =>
    intro a k cur evs
    have hcc : countCalls (evs ++ [Event.call m]) = countCalls evs + 1 := by
      simp [countCalls_append, countCalls, isCall, List.filter]
    rcases hp : p k with err | r
    · rw [retryLoop_netFail p m n a k cur evs err hp]
      simp only [loopEvents]
      omega
    · by_cases hok : (respOk r.status || r.status == 404) = true
      · rw [retryLoop_break p m n a k cur evs r hp hok]
        simp only [loopEvents]
        omega
      · by_cases h429 : r.status = 429
        · rw [retryLoop_429 p m n a k cur evs r hp h429]
          have hrec := ih (a + 1) (k + 1) (some (r, true))
            (evs ++ [.call m] ++ [.sleep (delay429 r)])
          have he : countCalls (evs ++ [Event.call m] ++ [Event.sleep (delay429 r)]) =
              countCalls evs + 1 := by
            simp [countCalls_append, countCalls, isCall, List.filter]
          omega
        · by_cases h5 : 500 ≤ r.status
          · rw [retryLoop_5xx p m n a k cur evs r hp h5]
            have hrec := ih (a + 1) (k + 1) (some (r, true))
              (evs ++ [.call m] ++ [.sleep (2000 * 2 ^ a)])
            have he : countCalls (evs ++ [Event.call m] ++ [Event.sleep (2000 * 2 ^ a)]) =
                countCalls evs + 1 := by
              simp [countCalls_append, countCalls, isCall, List.filter]
            omega
          · have h429x : ¬((r.status == 429) = true) := by
              simp only [beq_iff_eq]
              exact h429
            rw [retryLoop_other p m n a k cur evs r hp hok h429x h5]
            simp only [loopEvents]
            omega

theorem Route.finish_snd_filter (env : Route.Env) (f : Bool) (d : Option String)
    (cur : Option (GroqResponse × Bool)) (evs : List Event) :
    ((Route.finish env f d cur evs).2).filter isCall = evs.filter isCall := by
  rcases cur with _ | ⟨r, c⟩
  · simp [Route.finish, List.filter_append, saveEvents_filter_isCall]
  · simp only [Route.finish]
    by_cases hok : respOk r.status = true
    · rw [if_pos hok]
      rcases hj : env.jsonParse r.bodyText with _ | payload
      · simp
      · simp only
        rcases ha : Route.getAnswer payload with _ | s
        · simp
        · simp [List.filter_append, saveEvents_filter_isCall]
    · rw [if_neg hok]
      by_cases hc : c = true
      · rw [if_pos hc]
      · rw [if_neg hc]
        simp [List.filter_append, saveEvents_filter_isCall]

theorem Route.finish_countCalls (env : Route.Env) (f : Bool) (d : Option String)
    (cur : Option (GroqResponse × Bool)) (evs : List Event) :
    countCalls ((Route.finish env f d cur evs).2) = countCalls evs := by
  simp [countCalls, Route.finish_snd_filter]

theorem Route.finish_fst_indep (env : Route.Env) (f g : Bool) (d : Option String)
    (cur : Option (GroqResponse × Bool)) (evs evs' : List Event) :
    (Route.finish env f d cur evs).1 = (Route.finish env g d cur evs').1 := by
  rcases cur with _ | ⟨r, c⟩
  · simp [Route.finish]
  · simp only [Route.finish]
    by_cases hok : respOk r.status = true
    · rw [if_pos hok, if_pos hok]
      rcases hj : env.jsonParse r.bodyText with _ | payload
      · simp
      · simp only
        rcases ha : Route.getAnswer payload with _ | s
        · simp
        · simp
    · rw [if_neg hok, if_neg hok]
      by_cases hc : c = true
      · rw [if_pos hc, if_pos hc]
      · rw [if_neg hc, if_neg hc]

theorem Route.finish_status (env : Route.Env) (f : Bool) (d : Option String)
    (cur : Option (GroqResponse × Bool)) (evs : List Event) :
    (Route.finish env f d cur evs).1.status = 200 ∨ (Route.finish env f d cur evs).1.status = 500 := by
  rcases cur with _ | ⟨r, c⟩
  · simp [Route.finish]
  · simp only [Route.finish]
    by_cases hok : respOk r.status = true
    · rw [if_pos hok]
      rcases hj : env.jsonParse r.bodyText with _ | payload
      · simp
      · simp only
        rcases ha : Route.getAnswer payload with _ | s
        · simp
        · simp
    · rw [if_neg hok]
      by_cases hc : c = true
      · rw [if_pos hc]
        simp
      · rw [if_neg hc]
        simp

theorem Route.afterLoop_calls_le (env : Route.Env) (f : Bool) (d : Option String)
    (cur : Option (GroqResponse × Bool)) (evs : List Event) (k : Nat) :
    countCalls ((Route.afterLoop env f d cur evs k).2) ≤ countCalls evs + 1 := by
  rcases cur with _ | ⟨r, c⟩
  · simp only [Route.afterLoop]
    rw [Route.finish_countCalls]
    omega
  · simp only [Route.afterLoop]
    by_cases h404 : (!respOk r.status && r.status == 404) = true
    · rw [if_pos h404]
      rcases hp : env.provider k with err | r2
      · simp only
        rw [countCalls_append, countCalls_append, countCalls_saveEvents]
        simp [countCalls, isCall, List.filter]
      · simp only
        rw [Route.finish_countCalls, countCalls_append]
        simp [countCalls, isCall, List.filter]
    · rw [if_neg h404]
      rw [Route.finish_countCalls]
      omega

theorem Route.afterLoop_fst_indep (env : Route.Env) (f g : Bool) (d : Option String)
    (cur : Option (GroqResponse × Bool)) (evs evs' : List Event) (k : Nat) :
    (Route.afterLoop env f d cur evs k).1 = (Route.afterLoop env g d cur evs' k).1 := by
  rcases cur with _ | ⟨r, c⟩
  · simp only [Route.afterLoop]
    exact Route.finish_fst_indep env f g d none evs evs'
  · simp only [Route.afterLoop]
    by_cases h404 : (!respOk r.status && r.status == 404) = true
    · rw [if_pos h404, if_pos h404]
      rcases hp : env.provider k with err | r2
      · simp only
      · simp only
        exact Route.finish_fst_indep env f g d (some (r2, false)) (evs ++ [.call Route.FALLBACK_MODEL])
          (evs' ++ [.call Route.FALLBACK_MODEL])
    · rw [if_neg h404, if_neg h404]
      exact Route.finish_fst_indep env f g d (some (r, c)) evs evs'

theorem Route.afterLoop_status (env : Route.Env) (f : Bool) (d : Option String)
    (cur : Option (GroqResponse × Bool)) (evs : List Event) (k : Nat) :
    (Route.afterLoop env f d cur evs k).1.status = 200 ∨
      (Route.afterLoop env f d cur evs k).1.status = 500 := by
  rcases cur with _ | ⟨r, c⟩
  · simp only [Route.afterLoop]
    exact Route.finish_status env f d none evs
  · simp only [Route.afterLoop]
    by_cases h404 : (!respOk r.status && r.status == 404) = true
    · rw [if_pos h404]
      rcases hp : env.provider k with err | r2
      · simp
      · simp only
        exact Route.finish_status env f d (some (r2, false)) (evs ++ [.call Route.FALLBACK_MODEL])
    · rw [if_neg h404]
      exact Route.finish_status env f d (some (r, c)) evs

/-! Claim theorems. -/

/-- C1: behaviour of the analyze pipeline when the provider answers 500 on
every call, evaluated on the model.  The code makes exactly 4 provider calls
and the inter-call backoff delays are 2000, 4000 and 8000 ms (computed as
2000 times 2 to the attempt index; a final 16000 ms sleep follows the fourth
call), exactly as the claim states; but the final response is status 500
with body (error: Internal error), not the canned fallback annotated with
fallback true and the last observed status and body that the claim
describes.  The cause: the loop already consumed each response body via
text() at route.ts line 144, so the re-read at line 183 rejects (fetch
bodies are single-use) and the catch-all at line 221 answers instead of the
clearly intended annotation code at lines 186-193. -/
theorem c1_all_500_four_calls_then_internal_error :
    Route.POST all500Env false (.fields (some "document text") (some "gdpr") none) =
      ({ status := 500, body := Route.internalErrorJson },
       [.call "llama3-70b-8192", .sleep 2000, .call "llama3-70b-8192", .sleep 4000,
        .call "llama3-70b-8192", .sleep 8000, .call "llama3-70b-8192", .sleep 16000]) ∧
    countCalls (Route.POST all500Env false
        (.fields (some "document text") (some "gdpr") none)).2 = 4 :=
  ⟨rfl, rfl⟩

/-- C2: whenever the retry loop ends with a 404 response, the pipeline makes
exactly one additional provider call, with the pre-configured fallback model
name, and no further calls regardless of that leg's outcome (first
conjunct, stated on the post-loop stage for any loop exit state); and in the
scenario of a 404 on the primary model followed by a 200 whose message
content parses as JSON on the fallback model, the whole pipeline performs
exactly one primary-model call and one fallback-model call and returns the
fallback model's parsed result (second conjunct). -/
theorem c2_404_single_fallback_model_call :
    (∀ (env : Route.Env) (f : Bool) (d : Option String) (evs : List Event) (k : Nat)
        (r : GroqResponse) (c : Bool), r.status = 404 →
        ((Route.afterLoop env f d (some (r, c)) evs k).2).filter isCall =
          evs.filter isCall ++ [.call Route.FALLBACK_MODEL]) ∧
    (∀ (env : Route.Env) (f : Bool) (content lawRegion : Option String)
        (r1 r2 : GroqResponse) (payload : Json) (s : String) (j : Json),
        jsFalsy content = false → jsFalsy lawRegion = false → jsFalsy env.apiKey = false →
        env.provider 0 = .resp r1 → r1.status = 404 →
        env.provider 1 = .resp r2 → r2.status = 200 →
        env.jsonParse r2.bodyText = some payload →
        Route.getAnswer payload = .answer s →
        env.jsonParse s = some j →
        Route.POST env f (.fields content lawRegion none) =
          ({ status := 200, body := j },
           [.call (Route.modelName env), .call Route.FALLBACK_MODEL])) := by
  constructor
  · intro env f d evs k r c h404
    simp only [Route.afterLoop]
    have hcond : (!respOk r.status && r.status == 404) = true := by rw [h404]; rfl
    rw [if_pos hcond]
    rcases hp : env.provider k with err | r2
    · simp only
      rw [List.filter_append, List.filter_append, saveEvents_filter_isCall, List.append_nil]
      simp [isCall, List.filter]
    · simp only
      rw [Route.finish_snd_filter, List.filter_append]
      simp [isCall, List.filter]
  · intro env f c l r1 r2 payload s j hc hl hk hp0 h404 hp1 h200 hpar hans hjs
    have hn1 : ¬((jsFalsy c || jsFalsy l) = true) := by rw [hc, hl]; simp
    have hn2 : ¬(jsFalsy env.apiKey = true) := by rw [hk]; simp
    simp only [Route.POST]
    rw [if_neg hn1, if_neg hn2]
    have hok : (respOk r1.status || r1.status == 404) = true := by rw [h404]; rfl
    have hL : retryLoop env.provider (Route.modelName env) MAX_RETRIES 0 0 none [] =
        .done (some (r1, false)) ([] ++ [.call (Route.modelName env)]) 1 :=
      retryLoop_break env.provider (Route.modelName env) 3 0 0 none [] r1 hp0 hok
    rw [hL]
    simp only [List.nil_append, Route.afterLoop]
    have hcond : (!respOk r1.status && r1.status == 404) = true := by rw [h404]; rfl
    rw [if_pos hcond]
    simp only [hp1, Route.finish]
    have hok2 : respOk r2.status = true := by rw [h200]; rfl
    rw [if_pos hok2]
    simp only [hpar, hans, hjs]
    rfl

/-- C2 witness: concrete run with a 404 on the primary model and a 200
envelope whose content is the JSON text 7 on the fallback model. -/
theorem c2_404_single_fallback_model_call_witness :
    Route.POST fb404Env false (.fields (some "doc") (some "gdpr") none) =
      ({ status := 200, body := .num 7 },
       [.call (Route.modelName fb404Env), .call Route.FALLBACK_MODEL]) :=
  c2_404_single_fallback_model_call.2 fb404Env false (some "doc") (some "gdpr")
    { status := 404, retryAfter := none, bodyText := "model not found" }
    { status := 200, retryAfter := none, bodyText := "ENV" }
    numPayload "7" (.num 7) rfl rfl rfl rfl rfl rfl rfl rfl rfl rfl

/-- C3: for a 429 response the loop sleeps before the next attempt, and the
delay is chosen by priority: the Retry-After header (seconds times 1000)
when present, else the value scanned from the body text by the pattern
(try again in [number]s, seconds to milliseconds rounded up, computed by
parseGroqRetry), else the fixed 5000 ms default. -/
theorem c3_429_delay_priority :
    ∀ (p : Nat → CallOutcome) (m : String) (fuel a k : Nat)
      (cur : Option (GroqResponse × Bool)) (evs : List Event) (r : GroqResponse),
      p k = .resp r → r.status = 429 →
      (retryLoop p m (fuel + 1) a k cur evs =
        retryLoop p m fuel (a + 1) (k + 1) (some (r, true))
          (evs ++ [.call m] ++ [.sleep (delay429 r)])) ∧
      (∀ h, r.retryAfter = some h → delay429 r = h * 1000) ∧
      (r.retryAfter = none → ∀ v, parseGroqRetry r.bodyText = some v → delay429 r = v) ∧
      (r.retryAfter = none → parseGroqRetry r.bodyText = none → delay429 r = 5000) := by
  intro p m fuel a k cur evs r hp hst
  refine ⟨retryLoop_429 p m fuel a k cur evs r hp hst, ?_, ?_, ?_⟩
  · intro h hra
    simp [delay429, hra]
  · intro hra v hv
    simp [delay429, hra, hv]
  · intro hra hv
    simp [delay429, hra, hv]

/-- C3 witness: a 429 with no Retry-After header and a body hinting 2.0004
seconds sleeps the scanned, rounded-up 2001 ms before the next attempt. -/
theorem c3_429_delay_priority_witness :
    ((retryLoop hint429Provider "m" 4 0 0 none [] =
      retryLoop hint429Provider "m" 3 1 1 (some (hint429Resp, true))
        ([] ++ [.call "m"] ++ [.sleep (delay429 hint429Resp)])) ∧
     (∀ h, hint429Resp.retryAfter = some h → delay429 hint429Resp = h * 1000) ∧
     (hint429Resp.retryAfter = none → ∀ v, parseGroqRetry hint429Resp.bodyText = some v →
        delay429 hint429Resp = v) ∧
     (hint429Resp.retryAfter = none → parseGroqRetry hint429Resp.bodyText = none →
        delay429 hint429Resp = 5000)) ∧
    delay429 hint429Resp = 2001 ∧
    parseGroqRetry hint429Resp.bodyText = some 2001 :=
  ⟨c3_429_delay_priority hint429Provider "m" 3 0 0 none [] hint429Resp rfl rfl, rfl, rfl⟩

/-- C4: a request missing content or missing lawRegion is answered with
status 400 and body (error: Missing content or lawRegion), with an empty
effect trace, in particular zero outbound provider calls. -/
theorem c4_missing_fields_rejected :
    ∀ (env : Route.Env) (f : Bool) (content lawRegion documentId : Option String),
      (jsFalsy content || jsFalsy lawRegion) = true →
      Route.POST env f (.fields content lawRegion documentId) =
        ({ status := 400, body := missingFieldsJson }, []) := by
  intro env f c l d h
  simp only [Route.POST]
  rw [if_pos h]

/-- C4 witness: a request with no content field. -/
theorem c4_missing_fields_rejected_witness :
    Route.POST demoEnv false (.fields none (some "gdpr") none) =
      ({ status := 400, body := missingFieldsJson }, []) :=
  c4_missing_fields_rejected demoEnv false none (some "gdpr") none rfl

/-- C5: with no API credential configured the pipeline returns exactly the
static canned fallback with status 200, makes zero provider calls (the
whole effect trace is the persistence attempt), and persists the fallback
exactly when a truthy documentId was supplied. -/
theorem c5_unconfigured_static_fallback :
    ∀ (env : Route.Env) (f : Bool) (content lawRegion documentId : Option String),
      jsFalsy content = false → jsFalsy lawRegion = false → jsFalsy env.apiKey = true →
      (Route.POST env f (.fields content lawRegion documentId) =
        ({ status := 200, body := Route.fallbackJson }, saveEvents f documentId Route.fallbackJson)) ∧
      countCalls (saveEvents f documentId Route.fallbackJson) = 0 ∧
      ∀ d, documentId = some d → d.isEmpty = false →
        saveEvents f documentId Route.fallbackJson =
          [.insert d (saveRecord d Route.fallbackJson) (!f)] := by
  intro env f c l dId hc hl hk
  refine ⟨?_, countCalls_saveEvents f dId Route.fallbackJson, ?_⟩
  · simp only [Route.POST]
    have h1 : ¬((jsFalsy c || jsFalsy l) = true) := by rw [hc, hl]; simp
    rw [if_neg h1, if_pos hk]
  · intro d hd hne
    subst hd
    have hnc : ¬(d.isEmpty = true) := by rw [hne]; simp
    simp only [saveEvents]
    rw [if_neg hnc]
    rfl

/-- C5 witness: unconfigured environment, valid request with a document id. -/
theorem c5_unconfigured_static_fallback_witness :
    (Route.POST demoEnv true (.fields (some "doc") (some "gdpr") (some "doc-1")) =
      ({ status := 200, body := Route.fallbackJson },
       saveEvents true (some "doc-1") Route.fallbackJson)) ∧
    countCalls (saveEvents true (some "doc-1") Route.fallbackJson) = 0 ∧
    ∀ d, (some "doc-1" : Option String) = some d → d.isEmpty = false →
      saveEvents true (some "doc-1") Route.fallbackJson =
        [.insert d (saveRecord d Route.fallbackJson) (!true)] :=
  c5_unconfigured_static_fallback demoEnv true (some "doc") (some "gdpr") (some "doc-1")
    rfl rfl rfl

/-- C6: when the provider answers 200 but the message content is not valid
JSON, neither pipeline throws: route.ts returns the static canned fallback
(first conjunct), while the part_000 variant returns the degraded result
whose textualAnalysis field is the (trimmed) answer text with empty
structured fields (second conjunct).  Both answers have status 200 and a
single provider call. -/
theorem c6_non_json_answer_degrades :
    (∀ (env : Route.Env) (f : Bool) (content lawRegion : Option String)
        (r : GroqResponse) (payload : Json) (s : String),
        jsFalsy content = false → jsFalsy lawRegion = false → jsFalsy env.apiKey = false →
        env.provider 0 = .resp r → r.status = 200 →
        env.jsonParse r.bodyText = some payload →
        Route.getAnswer payload = .answer s →
        env.jsonParse s = none →
        Route.POST env f (.fields content lawRegion none) =
          ({ status := 200, body := Route.fallbackJson }, [.call (Route.modelName env)])) ∧
    (∀ (env : Variant.Env) (f : Bool) (content lawRegion : Option String)
        (r : GroqResponse) (payload : Json) (s : String),
        jsFalsy content = false → jsFalsy lawRegion = false → jsFalsy env.apiKey = false →
        (Variant.modelName env).isEmpty = false →
        env.provider 0 = .resp r → r.status = 200 →
        env.jsonParse r.bodyText = some payload →
        Variant.getAnswer payload = .answer s →
        env.jsonParse s = none →
        Variant.POST env f (.fields content lawRegion none) =
          ({ status := 200, body := degraded s }, [.call (Variant.modelName env)])) := by
  constructor
  · intro env f c l r payload s hc hl hk hp0 h200 hpar hans hjs
    have hn1 : ¬((jsFalsy c || jsFalsy l) = true) := by rw [hc, hl]; simp
    have hn2 : ¬(jsFalsy env.apiKey = true) := by rw [hk]; simp
    simp only [Route.POST]
    rw [if_neg hn1, if_neg hn2]
    have hok : (respOk r.status || r.status == 404) = true := by rw [h200]; rfl
    have hL : retryLoop env.provider (Route.modelName env) MAX_RETRIES 0 0 none [] =
        .done (some (r, false)) ([] ++ [.call (Route.modelName env)]) 1 :=
      retryLoop_break env.provider (Route.modelName env) 3 0 0 none [] r hp0 hok
    rw [hL]
    simp only [List.nil_append, Route.afterLoop]
    have hn404 : ¬((!respOk r.status && r.status == 404) = true) := by rw [h200]; decide
    rw [if_neg hn404]
    simp only [Route.finish]
    have hok2 : respOk r.status = true := by rw [h200]; rfl
    rw [if_pos hok2]
    simp only [hpar, hans, hjs]
    rfl
  · intro env f c l r payload s hc hl hk hm hp0 h200 hpar hans hjs
    have hn1 : ¬((jsFalsy c || jsFalsy l) = true) := by rw [hc, hl]; simp
    have hn2 : ¬((jsFalsy env.apiKey || (Variant.modelName env).isEmpty) = true) := by
      rw [hk, hm]; simp
    simp only [Variant.POST]
    rw [if_neg hn1, if_neg hn2]
    have hok : (respOk r.status || r.status == 404) = true := by rw [h200]; rfl
    have hL : retryLoop env.provider (Variant.modelName env) MAX_RETRIES 0 0 none [] =
        .done (some (r, false)) ([] ++ [.call (Variant.modelName env)]) 1 :=
      retryLoop_break env.provider (Variant.modelName env) 3 0 0 none [] r hp0 hok
    rw [hL]
    simp only [List.nil_append, Variant.afterLoop]
    have hn404 : ¬((!respOk r.status && r.status == 404) = true) := by rw [h200]; decide
    rw [if_neg hn404]
    simp only [Variant.finish]
    have hok2 : respOk r.status = true := by rw [h200]; rfl
    rw [if_pos hok2]
    simp only [hpar, hans, hjs]
    rfl

/-- C6 witness: both pipelines evaluated on a 200 envelope whose message
content is plain prose. -/
theorem c6_non_json_answer_degrades_witness :
    Route.POST prose200Env false (.fields (some "doc") (some "gdpr") none) =
      ({ status := 200, body := Route.fallbackJson }, [.call (Route.modelName prose200Env)]) ∧
    Variant.POST prose200EnvV false (.fields (some "doc") (some "gdpr") none) =
      ({ status := 200, body := degraded "plain prose, not JSON" },
       [.call (Variant.modelName prose200EnvV)]) :=
  ⟨c6_non_json_answer_degrades.1 prose200Env false (some "doc") (some "gdpr")
      { status := 200, retryAfter := none, bodyText := "PROSE" }
      prosePayload "plain prose, not JSON" rfl rfl rfl rfl rfl rfl rfl rfl,
   c6_non_json_answer_degrades.2 prose200EnvV false (some "doc") (some "gdpr")
      { status := 200, retryAfter := none, bodyText := "PROSE" }
      prosePayload "plain prose, not JSON" rfl rfl rfl rfl rfl rfl rfl rfl rfl⟩

/-- C7 counterexample: a run which is a successful structured response in
the claim's sense (200, message content is the valid JSON text 7), yet the
body the pipeline returns is the bare number 7, which lacks every required
AnalysisResult field: the code returns the parsed JSON verbatim with no
shape validation, so the round-trip claim fails as stated. -/
theorem c7_shape_not_validated_counterexample :
    json200Env.jsonParse "7" = some (.num 7) ∧
    Route.POST json200Env false (.fields (some "doc") (some "gdpr") none) =
      ({ status := 200, body := .num 7 }, [.call "llama3-70b-8192"]) ∧
    hasAnalysisShape (.num 7) = false :=
  ⟨rfl, rfl, rfl⟩

/-- C7 (amended): for every successful provider call whose message content
parses as JSON, the pipeline returns that parsed JSON value verbatim as the
response body; it performs no shape validation, so the returned JSON
carries the required AnalysisResult fields exactly when the model's own
JSON already does. -/
theorem c7_parsed_json_returned_verbatim :
    ∀ (env : Route.Env) (f : Bool) (content lawRegion : Option String)
      (r : GroqResponse) (payload : Json) (s : String) (j : Json),
      jsFalsy content = false → jsFalsy lawRegion = false → jsFalsy env.apiKey = false →
      env.provider 0 = .resp r → r.status = 200 →
      env.jsonParse r.bodyText = some payload →
      Route.getAnswer payload = .answer s →
      env.jsonParse s = some j →
      Route.POST env f (.fields content lawRegion none) =
        ({ status := 200, body := j }, [.call (Route.modelName env)]) ∧
      hasAnalysisShape j = hasAnalysisShape (Route.POST env f
        (.fields content lawRegion none)).1.body := by
  intro env f c l r payload s j hc hl hk hp0 h200 hpar hans hjs
  have hn1 : ¬((jsFalsy c || jsFalsy l) = true) := by rw [hc, hl]; simp
  have hn2 : ¬(jsFalsy env.apiKey = true) := by rw [hk]; simp
  have hmain : Route.POST env f (.fields c l none) =
      ({ status := 200, body := j }, [.call (Route.modelName env)]) := by
    simp only [Route.POST]
    rw [if_neg hn1, if_neg hn2]
    have hok : (respOk r.status || r.status == 404) = true := by rw [h200]; rfl
    have hL : retryLoop env.provider (Route.modelName env) MAX_RETRIES 0 0 none [] =
        .done (some (r, false)) ([] ++ [.call (Route.modelName env)]) 1 :=
      retryLoop_break env.provider (Route.modelName env) 3 0 0 none [] r hp0 hok
    rw [hL]
    simp only [List.nil_append, Route.afterLoop]
    have hn404 : ¬((!respOk r.status && r.status == 404) = true) := by rw [h200]; decide
    rw [if_neg hn404]
    simp only [Route.finish]
    have hok2 : respOk r.status = true := by rw [h200]; rfl
    rw [if_pos hok2]
    simp only [hpar, hans, hjs]
    rfl
  refine ⟨hmain, ?_⟩
  rw [hmain]

/-- C7 amended-claim witness: the verbatim-return theorem applied at the
counterexample environment. -/
theorem c7_parsed_json_returned_verbatim_witness :
    (Route.POST json200Env true (.fields (some "doc") (some "gdpr") none) =
      ({ status := 200, body := .num 7 }, [.call (Route.modelName json200Env)])) ∧
    hasAnalysisShape (.num 7) = hasAnalysisShape (Route.POST json200Env true
      (.fields (some "doc") (some "gdpr") none)).1.body :=
  c7_parsed_json_returned_verbatim json200Env true (some "doc") (some "gdpr")
    { status := 200, retryAfter := none, bodyText := "ENV" }
    numPayload "7" (.num 7) rfl rfl rfl rfl rfl rfl rfl rfl

/-- C8: a failing data-store insert never reaches the caller: the HTTP
response (status and body) of the handler is the same whether the insert
fails or succeeds, for every environment and request. -/
theorem c8_insert_failure_never_propagates :
    ∀ (env : Route.Env) (f g : Bool) (req : ReqBody),
      (Route.POST env f req).1 = (Route.POST env g req).1 := by
  intro env f g req
  rcases req with msg | ⟨c, l, d⟩
  · rfl
  · simp only [Route.POST]
    by_cases h1 : (jsFalsy c || jsFalsy l) = true
    · rw [if_pos h1, if_pos h1]
    · rw [if_neg h1, if_neg h1]
      by_cases h2 : jsFalsy env.apiKey = true
      · rw [if_pos h2, if_pos h2]
      · rw [if_neg h2, if_neg h2]
        rcases hL : retryLoop env.provider (Route.modelName env) MAX_RETRIES 0 0 none []
          with ⟨err, evs⟩ | ⟨cur, evs, k⟩
        · simp only [hL]
        · simp only [hL]
          exact Route.afterLoop_fst_indep env f g d cur evs evs k

/-- C9: every invocation of the handler performs at most 5 outbound provider
calls: at most MAX_RETRIES = 4 in the fuel-bounded retry loop plus at most
one fallback-model call. -/
theorem c9_at_most_five_provider_calls :
    ∀ (env : Route.Env) (f : Bool) (req : ReqBody),
      countCalls (Route.POST env f req).2 ≤ 5 := by
  intro env f req
  rcases req with msg | ⟨c, l, d⟩
  · simp [Route.POST, countCalls, List.filter]
  · simp only [Route.POST]
    by_cases h1 : (jsFalsy c || jsFalsy l) = true
    · rw [if_pos h1]
      simp [countCalls, List.filter]
    · rw [if_neg h1]
      by_cases h2 : jsFalsy env.apiKey = true
      · rw [if_pos h2]
        simp only
        rw [countCalls_saveEvents]
        omega
      · rw [if_neg h2]
        have hloop := retryLoop_calls_le env.provider (Route.modelName env) MAX_RETRIES 0 0 none []
        have h0 : countCalls ([] : List Event) = 0 := rfl
        rw [h0] at hloop
        rcases hL : retryLoop env.provider (Route.modelName env) MAX_RETRIES 0 0 none []
          with ⟨err, evs⟩ | ⟨cur, evs, k⟩
        · rw [hL] at hloop
          simp only [loopEvents] at hloop
          simp only [hL]
          rw [countCalls_append, countCalls_saveEvents]
          simp only [MAX_RETRIES] at hloop
          omega
        · rw [hL] at hloop
          simp only [loopEvents] at hloop
          simp only [hL]
          have hal := Route.afterLoop_calls_le env f d cur evs k
          simp only [MAX_RETRIES] at hloop
          omega

/-- C10: the handler is total at its public interface: a request body whose
JSON parsing or destructuring throws is answered with status 500 and body
(error: Internal error) and no side effects (first conjunct), and every
response the handler can produce has status 200, 400 or 500 - no path
escapes without producing a JSON response (second conjunct). -/
theorem c10_handler_total_and_caught :
    (∀ (env : Route.Env) (f : Bool) (msg : String),
      Route.POST env f (.throws msg) =
        ({ status := 500, body := Route.internalErrorJson }, [])) ∧
    (∀ (env : Route.Env) (f : Bool) (req : ReqBody),
      (Route.POST env f req).1.status = 200 ∨ (Route.POST env f req).1.status = 400 ∨
        (Route.POST env f req).1.status = 500) := by
  constructor
  · intro env f msg
    rfl
  · intro env f req
    rcases req with msg | ⟨c, l, d⟩
    · right; right; rfl
    · simp only [Route.POST]
      by_cases h1 : (jsFalsy c || jsFalsy l) = true
      · rw [if_pos h1]
        right; left; rfl
      · rw [if_neg h1]
        by_cases h2 : jsFalsy env.apiKey = true
        · rw [if_pos h2]
          left; rfl
        · rw [if_neg h2]
          rcases hL : retryLoop env.provider (Route.modelName env) MAX_RETRIES 0 0 none []
            with ⟨err, evs⟩ | ⟨cur, evs, k⟩
          · left; rfl
          · rcases Route.afterLoop_status env f d cur evs k with h | h
            · left; exact h
            · right; right; exact h

end ConsentLens
